import Mathlib

/-!
Shallow embedding of the storable-library-object lifecycle manager of the
edaparts repository (services/storable_objects_service.py and
utils/models_parser.py), together with the data model it manipulates.

External effectful collaborators (SQLAlchemy session, filesystem, file
locks, background scheduler) are modelled as explicit state passed through
the functions; file and lock operations additionally leave an event trace
so that ordering properties (validation under the lock, status updates
before lock acquisition) are expressible.
-/

namespace Edaparts

/-- CadType enum from models/internal/internal_models.py: ALTIUM = "altium",
KICAD = "kicad". -/
inductive CadType
  | ALTIUM
  | KICAD
deriving DecidableEq, Repr

/-- String value of a CadType (the Python enum value). -/
def CadType.value : CadType → String
  | .ALTIUM => "altium"
  | .KICAD => "kicad"

/-- StorableLibraryResourceType enum from internal_models.py. -/
inductive StorableLibraryResourceType
  | FOOTPRINT
  | SYMBOL
deriving DecidableEq, Repr

/-- Modelled from the spec: the DELETING member of StorageStatus.  The
checked-out internal_models.py predates the current service and lists only
NOT_STORED, STORING, STORED and STORAGE_FAILED; the spec (section 3) lists
all five values, the repository's own migration
4cf347d8ae68_initial_migration.py defines the storagestatus database enum
with all five, and the service uses StorageStatus.DELETING. -/
inductive StorageStatus
  | NOT_STORED
  | STORING
  | STORED
  | STORAGE_FAILED
  | DELETING
deriving DecidableEq, Repr

/-- Modelled from the spec: the error taxonomy of services/exceptions.py,
absent from the checkout; the constructors follow the spec's section 7
taxonomy and the service's imports and raise sites (ApiError with message
and http code, ResourceAlreadyExistsApiError, ResourceNotFoundApiError,
InvalidFootprintApiError, InvalidSymbolApiError,
InvalidStorableTypeError). -/
inductive ApiError
  | generic (msg : String) (httpCode : Nat)
  | resourceAlreadyExists (msg : String) (conflictingId : Nat)
  | resourceNotFound (msg : String) (missingId : Nat)
  | invalidFootprint (msg : String)
  | invalidSymbol (msg : String)
  | invalidStorableType (msg : String)
deriving DecidableEq, Repr

/-- Message of an error, standing for Python's str(error). -/
def ApiError.message : ApiError → String
  | .generic m _ => m
  | .resourceAlreadyExists m _ => m
  | .resourceNotFound m _ => m
  | .invalidFootprint m => m
  | .invalidSymbol m => m
  | .invalidStorableType m => m

/-! String helpers mirroring the Python primitives the service uses.  They
are written over the character list of the string so that every function
evaluates by plain structural recursion. -/

/-- Python str.split with a single-character separator. -/
def splitOnChar (sep : Char) (l : List Char) : List (List Char) :=
  l.foldr (fun c acc =>
    if c == sep then [] :: acc
    else match acc with
      | [] => [[c]]
      | h :: t => (c :: h) :: t) [[]]

/-- Python sep.join over character lists. -/
def joinSep (sep : List Char) : List (List Char) → List Char
  | [] => []
  | [p] => p
  | p :: ps => p ++ sep ++ joinSep sep ps

/-- Python str.lower (ASCII, as every path and name the service handles). -/
def strLower (s : String) : String :=
  ⟨s.data.map Char.toLower⟩

/-- Python str.upper (ASCII). -/
def strUpper (s : String) : String :=
  ⟨s.data.map Char.toUpper⟩

/-- Python str.startswith. -/
def strStartsWith (s p : String) : Bool :=
  p.data.isPrefixOf s.data

/-- Python str.endswith. -/
def strEndsWith (s p : String) : Bool :=
  p.data.reverse.isPrefixOf s.data.reverse

/-- One replacement pass of Python str.replace: left to right,
non-overlapping, every occurrence; the fuel starts at the subject's length
and dominates the recursion depth for a non-empty pattern. -/
def replaceFuel (pat rep : List Char) : Nat → List Char → List Char
  | 0, l => l
  | _ + 1, [] => []
  | fuel + 1, c :: cs =>
    if pat.isPrefixOf (c :: cs) then
      rep ++ replaceFuel pat rep fuel (cs.drop (pat.length - 1))
    else c :: replaceFuel pat rep fuel cs

/-- Python str.replace for a non-empty pattern. -/
def strReplace (s pat rep : String) : String :=
  ⟨replaceFuel pat.data rep.data s.data.length s.data⟩

/-- Python os.path.dirname for the relative POSIX paths the service
accepts: everything before the last separator, empty when there is none. -/
def dirname (p : String) : String :=
  let parts := splitOnChar '/' p.data
  if parts.length ≤ 1 then "" else ⟨joinSep ['/'] parts.dropLast⟩

/-- Python os.path.basename: the part after the last separator. -/
def basename (p : String) : String :=
  ⟨(splitOnChar '/' p.data).getLastD []⟩

/-- Python os.path.isabs for POSIX. -/
def isabs (p : String) : Bool :=
  strStartsWith p "/"

/-- Python str.strip for a single character. -/
def stripChar (c : Char) (s : String) : String :=
  String.mk (((s.data.dropWhile (· == c)).reverse.dropWhile (· == c)).reverse)

/-- Characters matched by the class 0-9a-z of the alias sanitizer. -/
def isLowerAlnum (c : Char) : Bool :=
  (('0' ≤ c) && (c ≤ '9')) || (('a' ≤ c) && (c ≤ 'z'))

/-- One step of the run-collapsing substitution: the Bool records whether
the previous character was part of a non-alphanumeric run already replaced. -/
def collapseStep (acc : List Char × Bool) (c : Char) : List Char × Bool :=
  if isLowerAlnum c then (acc.1 ++ [c], false)
  else if acc.2 then acc
  else (acc.1 ++ ['_'], true)

/-- Python re.sub with pattern class complement-of-0-9a-z repeated, and
replacement "_": every maximal run of characters outside 0-9a-z becomes a
single underscore. -/
def subNonAlnumRuns (s : String) : String :=
  String.mk (s.data.foldl collapseStep ([], false)).1

/-- Python s.rsplit(".", maxsplit=1)[0]: everything before the last dot,
or the whole string when there is no dot. -/
def dropLastExtension (s : String) : String :=
  let parts := splitOnChar '.' s.data
  if parts.length ≤ 1 then s else ⟨joinSep ['.'] parts.dropLast⟩

/-! Parser model (utils/models_parser.py).

The external libraries the parser delegates to (kiutils for the KiCad
s-expression formats, olefile for the Altium compound binary container)
are abstracted to their observable output: a file's content is a value
describing what those libraries would return for it.  The repository's own
logic — tag dispatch, symbol iteration, Description property extraction,
dictionary construction, emptiness and type classification — is embedded
faithfully. -/

/-- Property of a parsed KiCad symbol (kiutils Property: key and value). -/
structure SymbolProperty where
  key : String
  value : String
deriving DecidableEq, Repr

/-- A symbol of a parsed KiCad symbol library, as kiutils exposes it. -/
structure ParsedSymbol where
  entryName : String
  properties : List SymbolProperty
deriving DecidableEq, Repr

/-- Content of a KiCad text file, as seen through sexpr.parse_sexp plus
kiutils: a symbol library, a single footprint, a file with an unrecognized
top-level tag, or a file whose bytes cannot be read or decoded. -/
inductive KicadFileData
  | symbolLib (symbols : List ParsedSymbol)
  | footprintFile (entryName : String) (description : Option String)
  | unrecognized (libType : String)
  | unreadable (err : String)
deriving DecidableEq, Repr

/-- Content of an Altium compound binary file, as seen through olefile and
the stream decoding helpers: a binary PCB library (table-of-contents name
and description pairs), a schematic library (per-part name and
componentdescription pairs), an unsupported container, or a file olefile
rejects with an IOError. -/
inductive AltiumFileData
  | pcbBinaryLib (parts : List (String × Option String))
  | schematicLib (parts : List (String × Option String))
  | unsupported
  | corrupt (err : String)
deriving DecidableEq, Repr

/-- Abstract content of a file on disk. -/
inductive FileContent
  | kicad (d : KicadFileData)
  | altium (d : AltiumFileData)
deriving DecidableEq, Repr

/-- FootprintModel and SymbolModel dataclasses of models_parser.py. -/
inductive ParsedModel
  | FootprintModel (name : String) (description : Option String)
  | SymbolModel (name : String) (description : Option String)
deriving DecidableEq, Repr

/-- Name field of a parsed model. -/
def ParsedModel.name : ParsedModel → String
  | .FootprintModel n _ => n
  | .SymbolModel n _ => n

/-- Description field of a parsed model. -/
def ParsedModel.description : ParsedModel → Option String
  | .FootprintModel _ d => d
  | .SymbolModel _ d => d

/-- Insertion-ordered dictionary of parsed models, as Python dicts behave:
assigning to an existing key replaces the value in place, a new key is
appended. -/
def dictInsert (m : List (String × ParsedModel)) (k : String) (v : ParsedModel) :
    List (String × ParsedModel) :=
  if m.any (·.1 == k) then m.map (fun p => if p.1 == k then (k, v) else p)
  else m ++ [(k, v)]

/-- First "Description" property of a symbol, as the generator expression
with next(..., None) computes it. -/
def descriptionProperty (props : List SymbolProperty) : Option SymbolProperty :=
  props.find? (·.key == "Description")

/-- Errors a parse can produce: ApiError raised by the repository's own
code, or an IOError escaping from olefile (caught later by __get_library). -/
inductive ParseError
  | api (e : ApiError)
  | ioError (msg : String)
deriving DecidableEq, Repr

/-- The _parse_kicad_lib function (single-file case): dispatch on the
top-level tag; for a symbol library insert one SymbolModel per symbol,
keyed by its entry name, with the value of its "Description" property when
present; for a footprint file insert that footprint; an unrecognized tag
or an unreadable file raises ApiError.  Reading a non-KiCad binary file as
text fails to decode, which the function converts to the same read error. -/
def parseKicadLib (c : FileContent) : Except ApiError (List (String × ParsedModel)) :=
  match c with
  | .kicad (.symbolLib symbols) =>
      .ok (symbols.foldl
        (fun models s =>
          dictInsert models s.entryName
            (.SymbolModel s.entryName ((descriptionProperty s.properties).map (·.value))))
        [])
  | .kicad (.footprintFile n d) => .ok (dictInsert [] n (.FootprintModel n d))
  | .kicad (.unrecognized t) =>
      .error (.generic ("Unrecognized/unsupported KiCAD model type " ++ t) 500)
  | .kicad (.unreadable _) => .error (.generic "Cannot read KiCad lib" 400)
  | .altium _ => .error (.generic "Cannot read KiCad lib" 400)

/-- The _parse_olefile_library function: a PCB binary library yields one
FootprintModel per table-of-contents entry, a schematic library one
SymbolModel per part stream; an unsupported container logs a warning and
yields an empty dict; a corrupt container raises IOError out of olefile.
Opening a KiCad text file as an OLE container also raises IOError. -/
def parseOlefileLibrary (c : FileContent) : Except ParseError (List (String × ParsedModel)) :=
  match c with
  | .altium (.pcbBinaryLib parts) =>
      .ok (parts.foldl (fun m p => dictInsert m p.1 (.FootprintModel p.1 p.2)) [])
  | .altium (.schematicLib parts) =>
      .ok (parts.foldl (fun m p => dictInsert m p.1 (.SymbolModel p.1 p.2)) [])
  | .altium .unsupported => .ok []
  | .altium (.corrupt e) => .error (.ioError e)
  | .kicad _ => .error (.ioError "not an OLE2 structured storage file")

/-- Library dataclass of models_parser.py. -/
structure Library where
  cad_type : CadType
  models : List (String × ParsedModel)
  library_type : StorableLibraryResourceType
deriving DecidableEq, Repr

/-- Library.is_present: exact membership test against parsed part names. -/
def Library.is_present (lib : Library) (name : String) : Bool :=
  lib.models.any (·.1 == name)

/-- Library.count: number of parsed parts. -/
def Library.count (lib : Library) : Nat :=
  lib.models.length

/-- The parse_file function: dispatch on cad_type, fail when the resulting
dict is empty, classify the library as FOOTPRINT when the first parsed
entry is a FootprintModel and as SYMBOL otherwise. -/
def parse_file (c : FileContent) (cad_type : CadType) : Except ParseError Library :=
  let modelsE : Except ParseError (List (String × ParsedModel)) :=
    match cad_type with
    | .KICAD => (parseKicadLib c).mapError .api
    | .ALTIUM => parseOlefileLibrary c
  match modelsE with
  | .error e => .error e
  | .ok models =>
    if models.isEmpty then
      .error (.api (.generic "The given KiCAD file is empty" 400))
    else
      .ok { cad_type := cad_type
            models := models
            library_type :=
              match models.head? with
              | some (_, .FootprintModel _ _) => .FOOTPRINT
              | _ => .SYMBOL }

/-! Data model.

The StorableLibraryModel base class (models/libraries) maps one row per
logical library reference.  Its columns are taken from the repository's
migration 4cf347d8ae68: id, path, reference (non nullable), alias,
description, storage_status, storage_error, cad_type.  FootprintReference
and LibraryReference are two tables with this shape. -/

/-- One row of footprint_ref or library_ref. -/
structure StorableModelRow where
  id : Nat
  path : String
  reference : String
  aliasValue : Option String
  description : Option String
  storage_status : StorageStatus
  storage_error : Option String
  cad_type : CadType
deriving DecidableEq, Repr

/-- The two tables the service touches, selected by
__get_model_for_storable_type: FootprintReference for FOOTPRINT,
LibraryReference for SYMBOL. -/
structure Database where
  footprint_ref : List StorableModelRow
  library_ref : List StorableModelRow
deriving DecidableEq, Repr

/-- Table for a storable type. -/
def Database.table (db : Database) (t : StorableLibraryResourceType) : List StorableModelRow :=
  match t with
  | .FOOTPRINT => db.footprint_ref
  | .SYMBOL => db.library_ref

/-- Replace the table for a storable type. -/
def Database.setTable (db : Database) (t : StorableLibraryResourceType)
    (rows : List StorableModelRow) : Database :=
  match t with
  | .FOOTPRINT => { db with footprint_ref := rows }
  | .SYMBOL => { db with library_ref := rows }

/-- session.get by primary key on the table of a storable type. -/
def Database.get (db : Database) (t : StorableLibraryResourceType) (id : Nat) :
    Option StorableModelRow :=
  (db.table t).find? (·.id == id)

/-- Autoincrement primary key for an insert. -/
def freshId (rows : List StorableModelRow) : Nat :=
  (rows.foldl (fun a r => max a r.id) 0) + 1

/-- Filesystem area: an association of absolute path to file content. -/
structure FileSystem where
  files : List (String × FileContent)
deriving DecidableEq, Repr

/-- Content at a path, when the file exists. -/
def FileSystem.getFile (fs : FileSystem) (p : String) : Option FileContent :=
  (fs.files.find? (·.1 == p)).map (·.2)

/-- Path.exists(). -/
def FileSystem.fileExists (fs : FileSystem) (p : String) : Bool :=
  (fs.files.find? (·.1 == p)).isSome

/-- shutil.copy destination effect: write content at a path. -/
def FileSystem.write (fs : FileSystem) (p : String) (c : FileContent) : FileSystem :=
  ⟨(p, c) :: fs.files.filter (fun q => q.1 != p)⟩

/-- Path.unlink() / os.remove(). -/
def FileSystem.unlink (fs : FileSystem) (p : String) : FileSystem :=
  ⟨fs.files.filter (fun q => q.1 != p)⟩

/-- Reading a file: a missing file behaves as an undecodable one, which the
parsing layer maps to the same errors an unreadable file produces. -/
def FileSystem.readFile (fs : FileSystem) (p : String) : FileContent :=
  (fs.getFile p).getD (.kicad (.unreadable "No such file or directory"))

/-- World state threaded through the service and the background tasks: the
relational store, the target storage area, and the temp-upload area. -/
structure SysState where
  db : Database
  fs : FileSystem
  temp : FileSystem
deriving DecidableEq, Repr

/-- SHA-256 modelled as an ideal injective digest: two files compare equal
under hash_sha256 exactly when their bytes are equal. -/
def hash_sha256 (c : FileContent) : FileContent :=
  c

/-! Path computation (Config and the module-level base-dir table). -/

/-- Config.MODELS_BASE_DIR, an opaque deployment-supplied base directory. -/
def MODELS_BASE_DIR : String := "/models"

/-- Config.LOCKS_DIR, an opaque deployment-supplied lock directory. -/
def LOCKS_DIR : String := "/locks"

/-- The __storable_base_dirs table: cad_type value joined with the
footprints or symbols sub-directory. -/
def storableBaseDir (c : CadType) (t : StorableLibraryResourceType) : String :=
  c.value ++ "/" ++ (match t with
    | .FOOTPRINT => "footprints"
    | .SYMBOL => "symbols")

/-- The __get_target_object_path function: MODELS_BASE_DIR joined with the
base dir for the (cad_type, file_type) pair and the logical path. -/
def getTargetObjectPath (cad_type : CadType) (file_type : StorableLibraryResourceType)
    (path : String) : String :=
  MODELS_BASE_DIR ++ "/" ++ storableBaseDir cad_type file_type ++ "/" ++ path

/-- Lock file path used by __get_file_lock: LOCKS_DIR joined with the base
dir and the logical path suffixed ".lock". -/
def getLockPath (cad_type : CadType) (file_type : StorableLibraryResourceType)
    (path : String) : String :=
  LOCKS_DIR ++ "/" ++ storableBaseDir cad_type file_type ++ "/" ++ path ++ ".lock"

/-! Request and task value objects.

StorableObjectRequest and StorableObjectDataUpdateRequest are in the
checked-out internal_models.py.  StorableObjectUpdateRequest,
StorableObjectCreateReuseRequest, BaseStorableTask,
CreateUpdateDataStorableTask and DeleteStorableTask are imported by the
service but absent from the checkout; they are modelled from the spec
(section 3 StorableTask and section 6 interface contract) and from the
service's construction sites. -/

/-- StorableObjectRequest dataclass. -/
structure StorableObjectRequest where
  filename : String
  path : String
  file_type : StorableLibraryResourceType
  cad_type : CadType
  reference : Option String := none
  description : Option String := none
deriving DecidableEq, Repr

/-- StorableObjectDataUpdateRequest dataclass. -/
structure StorableObjectDataUpdateRequest where
  model_id : Nat
  filename : String
  file_type : StorableLibraryResourceType
  reference : Option String := none
deriving DecidableEq, Repr

/-- Modelled from the spec: StorableObjectUpdateRequest, absent from the
checked-out internal_models.py; fields from section 6 (reference?,
description?, cad_type?, file_type) and the service's field accesses. -/
structure StorableObjectUpdateRequest where
  file_type : StorableLibraryResourceType
  cad_type : CadType
  reference : Option String := none
  description : Option String := none
deriving DecidableEq, Repr

/-- Modelled from the spec: CreateUpdateDataStorableTask, absent from the
checked-out internal_models.py; fields from section 3 (StorableTask
carries model_id, path, file_type, cad_type, an optional filename and the
target reference) and the service's construction sites. -/
structure CreateUpdateDataStorableTask where
  model_id : Nat
  path : String
  file_type : StorableLibraryResourceType
  cad_type : CadType
  reference : Option String
  filename : Option String := none
deriving DecidableEq, Repr

/-- Modelled from the spec: DeleteStorableTask, absent from the
checked-out internal_models.py; fields from the service's construction
site in delete_object. -/
structure DeleteStorableTask where
  model_id : Nat
  path : String
  file_type : StorableLibraryResourceType
  cad_type : CadType
deriving DecidableEq, Repr

/-- BaseStorableTask: the union the task runner dispatches on with
isinstance checks. -/
inductive BaseStorableTask
  | createUpdate (t : CreateUpdateDataStorableTask)
  | delete (t : DeleteStorableTask)
deriving DecidableEq, Repr

/-- Python truthiness of an optional string: None and the empty string are
falsy. -/
def optStrTruthy : Option String → Bool
  | none => false
  | some s => s ≠ ""

/-! Service helpers (storable_objects_service.py, private functions). -/

/-- The __get_error_for_type function: InvalidFootprintApiError for
footprints, InvalidSymbolApiError for symbols. -/
def getErrorForType (t : StorableLibraryResourceType) : String → ApiError :=
  match t with
  | .FOOTPRINT => .invalidFootprint
  | .SYMBOL => .invalidSymbol

/-- The __get_library function: parse the file, require the parsed library
type to match the expected one, and convert an IOError escaping the parser
into the corrupt-file error for the expected type. -/
def getLibrary (content : FileContent) (cad_type : CadType)
    (expected_type : StorableLibraryResourceType) : Except ApiError Library :=
  match parse_file content cad_type with
  | .error (.api e) => .error e
  | .error (.ioError _) =>
      .error (getErrorForType expected_type "The given Altium file is corrupt")
  | .ok lib =>
      if expected_type ≠ lib.library_type then
        .error (getErrorForType expected_type "The given library is not of the expected type")
      else .ok lib

/-- Expected file extension for a (cad_type, file_type) pair, the
extensions_matrix of __validate_input_path. -/
def extensionFor (cad_type : CadType) (file_type : StorableLibraryResourceType) : String :=
  match cad_type, file_type with
  | .KICAD, .FOOTPRINT => "kicad_mod"
  | .KICAD, .SYMBOL => "kicad_sym"
  | .ALTIUM, .FOOTPRINT => "pcblib"
  | .ALTIUM, .SYMBOL => "schlib"

/-- The __validate_input_path function: the path must be relative, must not
start with a reserved storage-root name, KiCad footprints must live in a
directory suffixed .pretty, and the extension must match the pair. -/
def validateInputPath (path : String) (cad_type : CadType)
    (file_type : StorableLibraryResourceType) : Except ApiError Unit :=
  if isabs path then
    .error (.generic ("the given path " ++ path ++ " must be relative") 400)
  else if strStartsWith (strLower path) "footprints" = true
      ∨ strStartsWith (strLower path) "symbols" = true then
    .error (.generic ("the given path " ++ path ++ " must not start by the reserved prefix: "
      ++ String.mk ((splitOnChar '/' path.data).headD [])) 400)
  else if cad_type = .KICAD ∧ file_type = .FOOTPRINT
      ∧ ¬ strEndsWith (dirname path) ".pretty" = true then
    .error (.generic "KiCAD footprint files must be stored in a directory suffixed with .pretty" 400)
  else if ¬ strEndsWith (strLower path) ("." ++ extensionFor cad_type file_type) = true then
    .error (.generic ("the given path " ++ path ++ " must end with ."
      ++ extensionFor cad_type file_type) 400)
  else .ok ()

/-- The __validate_kicad_footprint_duplication function: a KiCad footprint
duplicates when a footprint row with the same reference exists whose path
starts with the same parent directory, excluding the row model_id names. -/
def validateKicadFootprintDuplication (db : Database) (path reference : String)
    (model_id : Option Nat) : Except ApiError Unit :=
  let parent_dir := dirname path
  let existing := db.footprint_ref.filter (fun r =>
    strStartsWith r.path parent_dir && r.cad_type == CadType.KICAD
      && r.reference == reference
      && (match model_id with | some mid => r.id != mid | none => true))
  match existing.head? with
  | some r =>
      .error (.resourceAlreadyExists "the given footprint duplicates the already existing one" r.id)
  | none => .ok ()

/-- The __validate_storable_not_exists function: KiCad footprints use the
parent-directory duplication rule; every other kind requires no row with
the same (path, reference) in the type's table, excluding model_id. -/
def validateStorableNotExists (db : Database) (storable_path reference_name : String)
    (file_type : StorableLibraryResourceType) (cad_type : CadType)
    (model_id : Option Nat) : Except ApiError Unit :=
  if file_type = .FOOTPRINT ∧ cad_type = .KICAD then
    validateKicadFootprintDuplication db storable_path reference_name model_id
  else
    let existing := (db.table file_type).filter (fun r =>
      r.path == storable_path && r.reference == reference_name
        && (match model_id with | some mid => r.id != mid | none => true))
    match existing.head? with
    | some r =>
        .error (.resourceAlreadyExists
          "Cannot create the requested storable object cause it already exists" r.id)
    | none => .ok ()

/-- The __validate_kicad_reference_change function: renaming a reference is
unsupported for KiCad footprints. -/
def validateKicadReferenceChange (file_type : StorableLibraryResourceType)
    (cad_type : CadType) : Except ApiError Unit :=
  if cad_type = .KICAD ∧ file_type = .FOOTPRINT then
    .error (.generic "KiCAD footprints do not support multiple references per file" 400)
  else .ok ()

/-- The __get_model_alias function: no alias for non-KiCad resources; for a
KiCad footprint the lowercased basename of the path's directory with every
occurrence of ".pretty" removed by str.replace, for a KiCad symbol the
lowercased path without its last extension; then non-alphanumeric runs
collapsed to underscores, underscores stripped at both ends, uppercased
and prefixed with EDAPARTS_. -/
def getModelAlias (storable_request : StorableObjectRequest) : Option String :=
  if storable_request.cad_type ≠ .KICAD then none
  else
    let lib_path_name :=
      if storable_request.file_type = .FOOTPRINT then
        strReplace (strLower (basename (dirname storable_request.path))) ".pretty" ""
      else dropLastExtension (strLower storable_request.path)
    some ("EDAPARTS_" ++ strUpper (stripChar '_' (subNonAlnumRuns lib_path_name)))

/-- Decidable equality for Except results, so concrete runs can be checked
by evaluation. -/
instance {ε α : Type} [DecidableEq ε] [DecidableEq α] : DecidableEq (Except ε α) :=
  fun x y =>
    match x, y with
    | .ok a, .ok b =>
        if h : a = b then .isTrue (by rw [h]) else .isFalse (by simp [h])
    | .error a, .error b =>
        if h : a = b then .isTrue (by rw [h]) else .isFalse (by simp [h])
    | .ok _, .error _ => .isFalse (by simp)
    | .error _, .ok _ => .isFalse (by simp)

/-- Result of a synchronous service operation: the returned value or error,
the database after the request transaction, and the background tasks the
request scheduled. -/
structure ServiceOutcome (α : Type) where
  result : Except ApiError α
  db : Database
  tasks : List BaseStorableTask
deriving DecidableEq, Repr

/-! Service operations. -/

/-- The update_object_data function: look the record up, short-circuit when
the record is STORED, the reference is unchanged or absent, the stored
file exists and its digest equals the new content's digest; otherwise
parse the new bytes, require the new or old reference to be present, check
duplication when a reference was supplied, reset the status to NOT_STORED
and schedule a store task carrying the temp file. -/
def update_object_data (st : SysState) (req : StorableObjectDataUpdateRequest) :
    ServiceOutcome StorableModelRow :=
  match st.db.get req.file_type req.model_id with
  | none => ⟨.error (.resourceNotFound "Storable object not found" req.model_id), st.db, []⟩
  | some model =>
    let target_file := getTargetObjectPath model.cad_type req.file_type model.path
    if model.storage_status = .STORED
        ∧ (req.reference = none ∨ req.reference = some model.reference)
        ∧ st.fs.fileExists target_file = true
        ∧ hash_sha256 (st.fs.readFile target_file) = hash_sha256 (st.temp.readFile req.filename)
    then ⟨.ok model, st.db, []⟩
    else
      match getLibrary (st.temp.readFile req.filename) model.cad_type req.file_type with
      | .error e => ⟨.error e, st.db, []⟩
      | .ok lib =>
        if optStrTruthy req.reference = true ∧ lib.is_present (req.reference.getD "") = false then
          ⟨.error (getErrorForType req.file_type
            "The provided reference was not found in the given library"), st.db, []⟩
        else if req.reference = none ∧ model.reference ≠ ""
            ∧ lib.is_present model.reference = false then
          ⟨.error (getErrorForType req.file_type
            "no reference provided for the file update and the existing one is not present in the given library"),
            st.db, []⟩
        else
          match (if req.reference.isSome then
                  validateStorableNotExists st.db model.path (req.reference.getD "")
                    req.file_type model.cad_type (some model.id)
                else .ok ()) with
          | .error e => ⟨.error e, st.db, []⟩
          | .ok _ =>
            let model1 := { model with storage_status := StorageStatus.NOT_STORED }
            let db1 := st.db.setTable req.file_type ((st.db.table req.file_type).map
              (fun r => if r.id == model.id then model1 else r))
            let taskRef := match req.reference with
              | some r => if r = "" then model.reference else r
              | none => model.reference
            ⟨.ok model1, db1,
              [.createUpdate ⟨model.id, model.path, req.file_type, model.cad_type,
                some taskRef, some req.filename⟩]⟩

/-- The update_object_metadata function: look the record up, return the
record unchanged when nothing changes; a reference change requires the
record to be STORED, forbids KiCad footprints, checks duplication,
re-parses the already stored file and requires the new name to exist in
it, then resets the status to NOT_STORED; an explicit differing
description is applied; a store task without a file is scheduled when the
requested reference differs from the record's. -/
def update_object_metadata (st : SysState) (model_id : Nat)
    (req : StorableObjectUpdateRequest) : ServiceOutcome StorableModelRow :=
  match st.db.get req.file_type model_id with
  | none => ⟨.error (.resourceNotFound "Storable object not found" model_id), st.db, []⟩
  | some model =>
    if (optStrTruthy req.reference = false ∧ optStrTruthy req.description = false)
        ∨ (req.reference = some model.reference ∧ req.description = model.description)
    then ⟨.ok model, st.db, []⟩
    else
      let renameStep : Except ApiError StorableModelRow :=
        if optStrTruthy req.reference = true ∧ req.reference ≠ some model.reference then
          if model.storage_status ≠ .STORED then
            .error (getErrorForType req.file_type
              "cannot update the reference cause the path is not yet stored")
          else match validateKicadReferenceChange req.file_type req.cad_type with
          | .error e => .error e
          | .ok _ =>
            match validateStorableNotExists st.db model.path (req.reference.getD "")
                req.file_type model.cad_type (some model.id) with
            | .error e => .error e
            | .ok _ =>
              let local_path := getTargetObjectPath req.cad_type req.file_type model.path
              match getLibrary (st.fs.readFile local_path) req.cad_type req.file_type with
              | .error e => .error e
              | .ok lib =>
                if lib.is_present (req.reference.getD "") = false then
                  .error (getErrorForType req.file_type
                    "The given reference does not exist in the given library ")
                else .ok { model with storage_status := StorageStatus.NOT_STORED }
        else .ok model
      match renameStep with
      | .error e => ⟨.error e, st.db, []⟩
      | .ok model1 =>
        let model2 :=
          if req.description.isSome ∧ req.description ≠ model.description then
            { model1 with description := req.description }
          else model1
        let db1 := st.db.setTable req.file_type ((st.db.table req.file_type).map
          (fun r => if r.id == model.id then model2 else r))
        let tasks : List BaseStorableTask :=
          if req.reference ≠ some model.reference then
            [.createUpdate ⟨model.id, model.path, req.file_type, model.cad_type,
              req.reference, none⟩]
          else []
        ⟨.ok model2, db1, tasks⟩

/-- The create_storable_library_object function: validate the path, parse
the uploaded temp file, infer the reference when none was supplied from a
single-part library, require the reference to be present, default the
description from the library, check duplication, insert a NOT_STORED row
with the derived alias and schedule a store task carrying the temp file. -/
def create_storable_library_object (st : SysState) (req : StorableObjectRequest) :
    ServiceOutcome StorableModelRow :=
  match validateInputPath req.path req.cad_type req.file_type with
  | .error e => ⟨.error e, st.db, []⟩
  | .ok _ =>
  match getLibrary (st.temp.readFile req.filename) req.cad_type req.file_type with
  | .error e => ⟨.error e, st.db, []⟩
  | .ok lib =>
    let reqE : Except ApiError StorableObjectRequest :=
      if optStrTruthy req.reference = false then
        if lib.count ≠ 1 then
          .error (getErrorForType req.file_type
            "More than one part in the given library. Provide a reference")
        else
          .ok { req with reference := some ((lib.models.head?.map (fun p => p.2.name)).getD "") }
      else .ok req
    match reqE with
    | .error e => ⟨.error e, st.db, []⟩
    | .ok req1 =>
      if lib.is_present (req1.reference.getD "") = false then
        ⟨.error (getErrorForType req.file_type
          "The given reference does not exist in the given library "), st.db, []⟩
      else
        let req2 :=
          if optStrTruthy req1.description = false then
            { req1 with description :=
                ((lib.models.find? (·.1 == req1.reference.getD "")).map
                  (fun p => p.2.description)).getD none }
          else req1
        match validateStorableNotExists st.db req2.path (req2.reference.getD "")
            req2.file_type req2.cad_type none with
        | .error e => ⟨.error e, st.db, []⟩
        | .ok _ =>
          let newId := freshId (st.db.table req2.file_type)
          let row : StorableModelRow :=
            { id := newId
              path := req2.path
              reference := req2.reference.getD ""
              aliasValue := getModelAlias req2
              description := req2.description
              storage_status := .NOT_STORED
              storage_error := none
              cad_type := req2.cad_type }
          let db1 := st.db.setTable req2.file_type (st.db.table req2.file_type ++ [row])
          ⟨.ok row, db1,
            [.createUpdate ⟨newId, row.path, req2.file_type, row.cad_type,
              some row.reference, some req2.filename⟩]⟩

/-- The delete_object function: look the record up in the table for the
requested type; when present, schedule a delete task; when absent, return
silently without error and without task. -/
def delete_object (st : SysState) (storable_type : StorableLibraryResourceType)
    (model_id : Nat) : ServiceOutcome Unit :=
  match st.db.get storable_type model_id with
  | none => ⟨.ok (), st.db, []⟩
  | some model =>
      ⟨.ok (), st.db, [.delete ⟨model.id, model.path, storable_type, model.cad_type⟩]⟩

/-- The get_storable_model function: fetch by id or raise
ResourceNotFoundApiError. -/
def get_storable_model (st : SysState) (storable_type : StorableLibraryResourceType)
    (model_id : Nat) : Except ApiError StorableModelRow :=
  match st.db.get storable_type model_id with
  | none => .error (.resourceNotFound "Storable object not found" model_id)
  | some m => .ok m

/-- The get_storable_model_data_path function: fetch by id or raise
ResourceNotFoundApiError, then resolve the physical path. -/
def get_storable_model_data_path (st : SysState)
    (storable_type : StorableLibraryResourceType) (model_id : Nat) :
    Except ApiError String :=
  match st.db.get storable_type model_id with
  | none => .error (.resourceNotFound "Storable object not found" model_id)
  | some m => .ok (getTargetObjectPath m.cad_type storable_type m.path)

/-! Background task runner.

The runner's effects on the database and the filesystems are returned as
new state; lock handling, status updates, copies, unlinks, row deletions
and temp-file removals additionally appear in an event trace in execution
order, so ordering claims (validation while holding the lock, DELETING set
before lock acquisition) are statable. -/

/-- Observable effect of the task runner, in execution order. -/
inductive Event
  | setState (model_id : Nat) (status : StorageStatus) (storage_error : Option String)
  | acquireLock (lockPath : String)
  | releaseLock (lockPath : String)
  | validateRefs
  | copyFile (src dst : String)
  | unlinkFile (path : String)
  | deleteRow (model_id : Nat)
  | removeTemp (name : String)
deriving DecidableEq, Repr

/-- Errors a task body can raise: a SQLAlchemyError from the data layer or
an ApiError from validation; the runner catches both. -/
inductive TaskError
  | sql (msg : String)
  | api (e : ApiError)
deriving DecidableEq, Repr

/-- Message of a task error, standing for Python's str(error). -/
def TaskError.message : TaskError → String
  | .sql m => m
  | .api e => e.message

/-- The __store_file_set_state function: update storage_status and
storage_error of the row in its own committed transaction.  Passing no
error description clears storage_error, exactly as the unconditional
values(storage_status=..., storage_error=...) update does. -/
def storeFileSetState (db : Database) (model_id : Nat)
    (file_type : StorableLibraryResourceType) (status : StorageStatus)
    (error_description : Option String) : Database :=
  db.setTable file_type ((db.table file_type).map (fun r =>
    if r.id == model_id then
      { r with storage_status := status, storage_error := error_description }
    else r))

/-- The __get_stored_references_for_id function: references of all rows of
the task's table with the task's path and cad_type, excluding the task's
own row, restricted to rows whose storage_status is STORED. -/
def getStoredReferencesForId (db : Database) (path : String) (cad_type : CadType)
    (file_type : StorableLibraryResourceType) (model_id : Nat) : List String :=
  ((db.table file_type).filter (fun r =>
    r.path == path && r.cad_type == cad_type && r.id != model_id
      && r.storage_status == StorageStatus.STORED)).map (·.reference)

/-- Presence in the library of one element of the references list the
store task checks: the comparison library.is_present(reference) — a None
reference (possible for tasks scheduled by a metadata update) is never
present. -/
def requiredRefPresent (library : Library) : Option String → Bool
  | some s => library.is_present s
  | none => false

/-- The __store_file_validate function: tasks without a file, and KiCad
footprint tasks, skip validation; otherwise the supplied file is re-parsed
and every reference currently stored at the task's path, plus the task's
own reference, must be present in it, the first absent one raising
ApiError.  The emitted event marks that the re-parse and check ran. -/
def storeFileValidate (db : Database) (temp : FileSystem)
    (task : CreateUpdateDataStorableTask) : Except ApiError Unit × List Event :=
  match task.filename with
  | none => (.ok (), [])
  | some fname =>
    if task.cad_type = .KICAD ∧ task.file_type = .FOOTPRINT then (.ok (), [])
    else
      match getLibrary (temp.readFile fname) task.cad_type task.file_type with
      | .error e => (.error e, [.validateRefs])
      | .ok library =>
        let references_list : List (Option String) :=
          ((getStoredReferencesForId db task.path task.cad_type task.file_type
            task.model_id).map some) ++ [task.reference]
        match references_list.find? (fun r => ! requiredRefPresent library r) with
        | some missing =>
            (.error (.generic ("update to " ++ fname ++ " will remove an existing reference "
              ++ missing.getD "None") 500), [.validateRefs])
        | none => (.ok (), [.validateRefs])

/-- Result of one task body: its outcome, the state it leaves behind, and
its event trace. -/
structure TaskOutcome where
  result : Except TaskError Unit
  state : SysState
  events : List Event
deriving DecidableEq, Repr

/-- The __task_store_file function: mark STORING, acquire the per-path
lock, validate under the lock, re-read the row's current reference and
update it (re-checking duplicates) when the task's differs, copy the bytes
to the target path when a file was supplied, and mark STORED.  The .one()
row fetch raises a data-layer error when the row is gone; updating the
non-nullable reference column to None raises a data-layer error at
commit. -/
def taskStoreFile (st : SysState) (task : CreateUpdateDataStorableTask) : TaskOutcome :=
  let target_file := getTargetObjectPath task.cad_type task.file_type task.path
  let lockPath := getLockPath task.cad_type task.file_type task.path
  let db1 := storeFileSetState st.db task.model_id task.file_type .STORING none
  let ev0 : List Event := [.setState task.model_id .STORING none, .acquireLock lockPath]
  match storeFileValidate db1 st.temp task with
  | (.error e, vev) =>
      ⟨.error (.api e), { st with db := db1 }, ev0 ++ vev ++ [.releaseLock lockPath]⟩
  | (.ok _, vev) =>
    match (db1.table task.file_type).find? (·.id == task.model_id) with
    | none =>
        ⟨.error (.sql "No row was found when one was required"), { st with db := db1 },
          ev0 ++ vev ++ [.releaseLock lockPath]⟩
    | some row =>
      let refStep : Except TaskError Database :=
        if task.reference ≠ some row.reference then
          match validateStorableNotExists db1 task.path (task.reference.getD "")
              task.file_type task.cad_type (some task.model_id) with
          | .error e => .error (.api e)
          | .ok _ =>
            match task.reference with
            | none => .error (.sql "IntegrityError: null value in column reference")
            | some r =>
                .ok (db1.setTable task.file_type ((db1.table task.file_type).map
                  (fun q => if q.id == task.model_id then { q with reference := r } else q)))
        else .ok db1
      match refStep with
      | .error e => ⟨.error e, { st with db := db1 }, ev0 ++ vev ++ [.releaseLock lockPath]⟩
      | .ok db2 =>
        let copyPart : FileSystem × List Event :=
          match task.filename with
          | some fname =>
              (st.fs.write target_file (st.temp.readFile fname),
                [Event.copyFile fname target_file])
          | none => (st.fs, [])
        let db3 := storeFileSetState db2 task.model_id task.file_type .STORED none
        ⟨.ok (), { st with db := db3, fs := copyPart.1 },
          ev0 ++ vev ++ copyPart.2
            ++ [.setState task.model_id .STORED none, .releaseLock lockPath]⟩

/-- The __task_delete_model function: mark DELETING, acquire the per-path
lock, unlink the physical file only when no other STORED reference with
the task's path and cad_type remains and the file exists, then delete the
row and commit. -/
def taskDeleteModel (st : SysState) (task : DeleteStorableTask) : TaskOutcome :=
  let lockPath := getLockPath task.cad_type task.file_type task.path
  let target_file := getTargetObjectPath task.cad_type task.file_type task.path
  let db1 := storeFileSetState st.db task.model_id task.file_type .DELETING none
  let other_references :=
    getStoredReferencesForId db1 task.path task.cad_type task.file_type task.model_id
  let unlinkPart : FileSystem × List Event :=
    if other_references.isEmpty ∧ st.fs.fileExists target_file = true then
      (st.fs.unlink target_file, [Event.unlinkFile target_file])
    else (st.fs, [])
  let db2 := db1.setTable task.file_type
    ((db1.table task.file_type).filter (fun r => r.id != task.model_id))
  ⟨.ok (), { st with db := db2, fs := unlinkPart.1 },
    [.setState task.model_id .DELETING none, .acquireLock lockPath] ++ unlinkPart.2
      ++ [.deleteRow task.model_id, .releaseLock lockPath]⟩

/-- Model id of either task kind. -/
def BaseStorableTask.model_id : BaseStorableTask → Nat
  | .createUpdate t => t.model_id
  | .delete t => t.model_id

/-- File type of either task kind. -/
def BaseStorableTask.file_type : BaseStorableTask → StorableLibraryResourceType
  | .createUpdate t => t.file_type
  | .delete t => t.file_type

/-- Body of the _object_store_task function: dispatch on the task kind. -/
def objectStoreTaskBody (st : SysState) (task : BaseStorableTask) : TaskOutcome :=
  match task with
  | .createUpdate t => taskStoreFile st t
  | .delete t => taskDeleteModel st t

/-- The _object_store_task function: run the body, catch any data-layer or
validation error, always remove the temp file of a store task afterwards,
and when an error was caught convert it — after the body — into a
STORAGE_FAILED update carrying the error's message in its own session. -/
def object_store_task (st : SysState) (task : BaseStorableTask) : SysState × List Event :=
  let body := objectStoreTaskBody st task
  let cleanupPart : SysState × List Event :=
    match task with
    | .createUpdate t =>
      match t.filename with
      | some fname =>
          ({ body.state with temp := body.state.temp.unlink fname }, [Event.removeTemp fname])
      | none => (body.state, [])
    | .delete _ => (body.state, [])
  match body.result with
  | .ok _ => (cleanupPart.1, body.events ++ cleanupPart.2)
  | .error e =>
      ({ cleanupPart.1 with
          db := storeFileSetState cleanupPart.1.db task.model_id task.file_type
            .STORAGE_FAILED (some e.message) },
        body.events ++ cleanupPart.2
          ++ [.setState task.model_id .STORAGE_FAILED (some e.message)])

/-! Definitions supporting the claim statements: the alias derivation in
the spec's own words, the reference list the store task checks, and
concrete fixtures for counterexamples and witnesses. -/

/-- Alias derivation in the words of claim C6: the path name lowercased
(for KiCad footprints, the parent directory's basename with its ".pretty"
suffix removed; for KiCad symbols, the path without its extension),
non-alphanumeric runs collapsed to underscores, stripped of leading and
trailing underscores, uppercased and prefixed EDAPARTS_, for KiCad only. -/
def aliasPerClaimC6 (req : StorableObjectRequest) : Option String :=
  if req.cad_type = .KICAD then
    let lib_path_name :=
      if req.file_type = .FOOTPRINT then
        let b := strLower (basename (dirname req.path))
        if strEndsWith b ".pretty" then ⟨b.data.take (b.data.length - 7)⟩ else b
      else dropLastExtension (strLower req.path)
    some ("EDAPARTS_" ++ strUpper (stripChar '_' (subNonAlnumRuns lib_path_name)))
  else none

/-- Alias derivation as amended for claim C6: identical to the claim's
wording except that every occurrence of ".pretty" in the lowercased parent
directory basename is removed (the behaviour of str.replace), not only a
trailing suffix. -/
def aliasAmendedC6 (req : StorableObjectRequest) : Option String :=
  if req.cad_type = .KICAD then
    let lib_path_name :=
      if req.file_type = .FOOTPRINT then
        strReplace (strLower (basename (dirname req.path))) ".pretty" ""
      else dropLastExtension (strLower req.path)
    some ("EDAPARTS_" ++ strUpper (stripChar '_' (subNonAlnumRuns lib_path_name)))
  else none

/-- The references a store task must find in the newly supplied file: every
reference stored at the task's path other than the task's own row, plus
the reference being stored. -/
def storeTaskRequiredReferences (db : Database) (task : CreateUpdateDataStorableTask) :
    List (Option String) :=
  ((getStoredReferencesForId db task.path task.cad_type task.file_type
    task.model_id).map some) ++ [task.reference]

/-- Entry _parse_kicad_lib builds for one symbol: keyed by the declared
entry name, with the value of its "Description" property when present. -/
def symbolEntry (s : ParsedSymbol) : String × ParsedModel :=
  (s.entryName, .SymbolModel s.entryName ((descriptionProperty s.properties).map (·.value)))

/-- Fixture for claim C1's counterexample: a KiCad footprint row whose
store task carries a new file that does not contain the row's reference. -/
def rowC1 : StorableModelRow :=
  { id := 1, path := "l.pretty/f.kicad_mod", reference := "r", aliasValue := none,
    description := none, storage_status := .NOT_STORED, storage_error := none,
    cad_type := .KICAD }

/-- Fixture for claim C1's counterexample: world state with the row and the
trimmed upload. -/
def stC1 : SysState :=
  { db := ⟨[rowC1], []⟩, fs := ⟨[]⟩,
    temp := ⟨[("tmp1", .kicad (.footprintFile "other" none))]⟩ }

/-- Fixture for claim C1's counterexample: the store task itself. -/
def taskC1 : CreateUpdateDataStorableTask :=
  ⟨1, "l.pretty/f.kicad_mod", .FOOTPRINT, .KICAD, some "r", some "tmp1"⟩

/-- Fixture for claim C1's witness: two STORED sibling symbol rows at one
path. -/
def rowC1w (i : Nat) (ref : String) : StorableModelRow :=
  { id := i, path := "l.kicad_sym", reference := ref, aliasValue := none,
    description := none, storage_status := .STORED, storage_error := none,
    cad_type := .KICAD }

/-- Fixture for claim C1's witness: state whose upload drops sibling B. -/
def stC1w : SysState :=
  { db := ⟨[], [rowC1w 1 "A", rowC1w 2 "B"]⟩, fs := ⟨[]⟩,
    temp := ⟨[("t", .kicad (.symbolLib [⟨"A", []⟩]))]⟩ }

/-- Fixture for claim C1's witness: the store task pushing the trimmed
file. -/
def taskC1w : CreateUpdateDataStorableTask :=
  ⟨1, "l.kicad_sym", .SYMBOL, .KICAD, some "A", some "t"⟩

/-- Fixture for claim C2's counterexample: a STORED row and a
STORAGE_FAILED sibling at the same path. -/
def rowC2a : StorableModelRow :=
  { id := 1, path := "l.kicad_sym", reference := "A", aliasValue := none,
    description := none, storage_status := .STORED, storage_error := none,
    cad_type := .KICAD }

/-- Fixture for claim C2's counterexample: the sibling row. -/
def rowC2b : StorableModelRow :=
  { rowC2a with id := 2, reference := "B", storage_status := .STORAGE_FAILED }

/-- Fixture for claim C2's counterexample: state with the shared physical
file present. -/
def stC2 : SysState :=
  { db := ⟨[], [rowC2a, rowC2b]⟩,
    fs := ⟨[(getTargetObjectPath .KICAD .SYMBOL "l.kicad_sym",
      .kicad (.symbolLib [⟨"A", []⟩, ⟨"B", []⟩]))]⟩,
    temp := ⟨[]⟩ }

/-- Fixture for claim C3's witness: a store task whose upload is missing,
so its body fails validation. -/
def taskC3 : BaseStorableTask :=
  .createUpdate ⟨5, "l.kicad_sym", .SYMBOL, .KICAD, some "A", some "t5"⟩

/-- Fixture for claim C3's witness: empty world state. -/
def stC3 : SysState :=
  ⟨⟨[], []⟩, ⟨[]⟩, ⟨[]⟩⟩

/-- Fixture for claim C4's witness: a STORED Altium symbol row. -/
def rowC4 : StorableModelRow :=
  { id := 3, path := "amp.schlib", reference := "OPAMP", aliasValue := none,
    description := none, storage_status := .STORED, storage_error := none,
    cad_type := .ALTIUM }

/-- Fixture for claim C4's witness: the stored bytes. -/
def contentC4 : FileContent :=
  .altium (.schematicLib [("OPAMP", none)])

/-- Fixture for claim C4's witness: state where the upload equals the
stored bytes. -/
def stC4 : SysState :=
  { db := ⟨[], [rowC4]⟩,
    fs := ⟨[(getTargetObjectPath .ALTIUM .SYMBOL "amp.schlib", contentC4)]⟩,
    temp := ⟨[("up1", contentC4)]⟩ }

/-- Fixture for claim C5's counterexample: a KiCad footprint row that is
not yet STORED. -/
def rowC5 : StorableModelRow :=
  { id := 1, path := "l.pretty/f.kicad_mod", reference := "a", aliasValue := none,
    description := none, storage_status := .NOT_STORED, storage_error := none,
    cad_type := .KICAD }

/-- Fixture for claim C5's counterexample: state holding that row. -/
def stC5 : SysState :=
  { db := ⟨[rowC5], []⟩, fs := ⟨[]⟩, temp := ⟨[]⟩ }

/-- Fixture for claim C5's witness: a STORED Altium symbol row. -/
def rowC5w : StorableModelRow :=
  { id := 4, path := "lib.schlib", reference := "X", aliasValue := none,
    description := none, storage_status := .STORED, storage_error := none,
    cad_type := .ALTIUM }

/-- Fixture for claim C5's witness: state with the stored file parsed to a
library that does not contain the requested new name. -/
def stC5w : SysState :=
  { db := ⟨[], [rowC5w]⟩,
    fs := ⟨[(getTargetObjectPath .ALTIUM .SYMBOL "lib.schlib",
      .altium (.schematicLib [("X", none)]))]⟩,
    temp := ⟨[]⟩ }

/-- Fixture for claim C6's counterexample: an upload whose parent directory
contains ".pretty" also before its suffix. -/
def reqC6x : StorableObjectRequest :=
  { filename := "t6", path := "x.pretty.pretty/f.kicad_mod",
    file_type := .FOOTPRINT, cad_type := .KICAD, reference := some "f" }

/-- Fixture for claim C6's counterexample: state holding that upload. -/
def stC6x : SysState :=
  { db := ⟨[], []⟩, fs := ⟨[]⟩, temp := ⟨[("t6", .kicad (.footprintFile "f" none))]⟩ }

/-- Fixture for claim C6's witness: the upload of the end-to-end scenario,
Lib.pretty/R.kicad_mod containing footprint R_0603. -/
def reqC6 : StorableObjectRequest :=
  { filename := "t7", path := "Lib.pretty/R.kicad_mod",
    file_type := .FOOTPRINT, cad_type := .KICAD, reference := some "R_0603" }

/-- Fixture for claim C6's witness: state holding that upload. -/
def stC6 : SysState :=
  { db := ⟨[], []⟩, fs := ⟨[]⟩,
    temp := ⟨[("t7", .kicad (.footprintFile "R_0603" none))]⟩ }

/-- Fixture for claim C7's witness: an upload with a single-symbol library
and no reference supplied. -/
def reqC7 : StorableObjectRequest :=
  { filename := "t2", path := "lib.kicad_sym", file_type := .SYMBOL, cad_type := .KICAD }

/-- Fixture for claim C7's witness: state holding that upload. -/
def stC7 : SysState :=
  { db := ⟨[], []⟩, fs := ⟨[]⟩,
    temp := ⟨[("t2", .kicad (.symbolLib [⟨"S1", [⟨"Description", "a desc"⟩]⟩]))]⟩ }

/-- Fixture for claim C9's witness: two named symbols, one with a
Description property. -/
def ssC9 : List ParsedSymbol :=
  [⟨"A", [⟨"Description", "da"⟩]⟩, ⟨"B", []⟩]

/-- Fixture for claim C10's witness: empty world state. -/
def stC10 : SysState :=
  ⟨⟨[], []⟩, ⟨[]⟩, ⟨[]⟩⟩

/-! Theorems. -/

/-- Reading back the table just written. -/
theorem table_setTable_same (db : Database) (t : StorableLibraryResourceType)
    (rows : List StorableModelRow) : (db.setTable t rows).table t = rows := by
  cases t <;> rfl

/-- Filtering with a predicate that rejects the updated id commutes with a
per-row update that only touches that id and preserves ids. -/
theorem filter_map_update_excluded (rows : List StorableModelRow) (mid : Nat)
    (f : StorableModelRow → StorableModelRow)
    (hid : ∀ r, (f r).id = r.id)
    (hfix : ∀ r, ¬ r.id = mid → f r = r)
    (q : StorableModelRow → Bool)
    (hq : ∀ r, r.id = mid → q r = false) :
    (rows.map f).filter q = rows.filter q := by
  induction rows with
  | nil => rfl
  | cons r rows ih =>
    by_cases h : r.id = mid
    · have h1 : q (f r) = false := hq _ ((hid r).trans h)
      have h2 : q r = false := hq _ h
      simp [List.filter_cons, h1, h2, ih]
    · rw [List.map_cons, List.filter_cons, List.filter_cons, hfix r h, ih]

/-- A status update of the queried row itself does not change the stored
sibling references, which exclude that row. -/
theorem getStored_after_setState_self (db : Database) (mid : Nat)
    (ft : StorableLibraryResourceType) (s : StorageStatus) (err : Option String)
    (path : String) (cad : CadType) :
    getStoredReferencesForId (storeFileSetState db mid ft s err) path cad ft mid
      = getStoredReferencesForId db path cad ft mid := by
  unfold getStoredReferencesForId storeFileSetState
  rw [table_setTable_same]
  rw [filter_map_update_excluded (db.table ft) mid _ (fun r => by split <;> rfl)
    (fun r hr => by simp [hr]) _ (fun r hr => by simp [hr])]

/-- Unlinking a path makes it absent. -/
theorem fileExists_unlink_self (fs : FileSystem) (p : String) :
    (fs.unlink p).fileExists p = false := by
  unfold FileSystem.unlink FileSystem.fileExists
  induction fs.files with
  | nil => rfl
  | cons q l ih =>
    by_cases h : q.1 = p
    · simp [List.filter_cons, h, ih]
    · simp [List.filter_cons, h, List.find?_cons, bne, ih]

/-- Claim C10: a delete for an id matching no record of the requested type
returns silently, raising no resource-not-found error and scheduling no
background task, while get, get_data_path, update_data and update_metadata
all raise the resource-not-found error for the unknown id. -/
theorem delete_unknown_id_silent_reads_raise (st : SysState)
    (ty : StorableLibraryResourceType) (id : Nat)
    (req : StorableObjectDataUpdateRequest) (mreq : StorableObjectUpdateRequest)
    (habsent : st.db.get ty id = none)
    (hreq : req.model_id = id ∧ req.file_type = ty)
    (hmreq : mreq.file_type = ty) :
    delete_object st ty id = ⟨.ok (), st.db, []⟩
    ∧ get_storable_model st ty id
        = .error (.resourceNotFound "Storable object not found" id)
    ∧ get_storable_model_data_path st ty id
        = .error (.resourceNotFound "Storable object not found" id)
    ∧ update_object_data st req
        = ⟨.error (.resourceNotFound "Storable object not found" id), st.db, []⟩
    ∧ update_object_metadata st id mreq
        = ⟨.error (.resourceNotFound "Storable object not found" id), st.db, []⟩ := by
  obtain ⟨h1, h2⟩ := hreq
  subst h1
  subst h2
  simp [delete_object, get_storable_model, get_storable_model_data_path,
    update_object_data, update_object_metadata, hmreq, habsent]

/-- Claim C10 witness at a concrete empty state. -/
theorem delete_unknown_id_silent_reads_raise_witness :
    delete_object stC10 .SYMBOL 7 = ⟨.ok (), stC10.db, []⟩
    ∧ get_storable_model stC10 .SYMBOL 7
        = .error (.resourceNotFound "Storable object not found" 7)
    ∧ get_storable_model_data_path stC10 .SYMBOL 7
        = .error (.resourceNotFound "Storable object not found" 7)
    ∧ update_object_data stC10 ⟨7, "f", .SYMBOL, none⟩
        = ⟨.error (.resourceNotFound "Storable object not found" 7), stC10.db, []⟩
    ∧ update_object_metadata stC10 7 ⟨.SYMBOL, .KICAD, none, none⟩
        = ⟨.error (.resourceNotFound "Storable object not found" 7), stC10.db, []⟩ :=
  delete_unknown_id_silent_reads_raise stC10 .SYMBOL 7 ⟨7, "f", .SYMBOL, none⟩
    ⟨.SYMBOL, .KICAD, none, none⟩ (by decide) ⟨rfl, rfl⟩ rfl

/-- Claim C4: update_data against a STORED record whose file exists, with
content of identical SHA-256 digest and a reference that is absent or
equal to the record's, returns the record unchanged, leaves the database
unchanged and schedules no background task. -/
theorem update_data_identical_content_noop (st : SysState)
    (req : StorableObjectDataUpdateRequest) (model : StorableModelRow)
    (hget : st.db.get req.file_type req.model_id = some model)
    (hstored : model.storage_status = .STORED)
    (href : req.reference = none ∨ req.reference = some model.reference)
    (hex : st.fs.fileExists (getTargetObjectPath model.cad_type req.file_type model.path)
      = true)
    (hhash : hash_sha256
        (st.fs.readFile (getTargetObjectPath model.cad_type req.file_type model.path))
      = hash_sha256 (st.temp.readFile req.filename)) :
    update_object_data st req = ⟨.ok model, st.db, []⟩ := by
  rcases href with h | h <;>
    simp [update_object_data, hget, hstored, hex, hhash, h]

/-- Claim C4 witness: identical Altium bytes and no requested reference. -/
theorem update_data_identical_content_noop_witness :
    update_object_data stC4 ⟨3, "up1", .SYMBOL, none⟩ = ⟨.ok rowC4, stC4.db, []⟩ :=
  update_data_identical_content_noop stC4 ⟨3, "up1", .SYMBOL, none⟩ rowC4 (by decide)
    rfl (.inl rfl) (by decide) (by decide)

/-- Claim C8: storage_status only takes the five declared values, and the
delete task emits its DELETING status update first, before acquiring the
path lock, which in turn precedes every remaining effect including the row
removal, which does occur. -/
theorem storage_status_enum_and_delete_marks_deleting_first :
    (∀ s : StorageStatus,
      s = .NOT_STORED ∨ s = .STORING ∨ s = .STORED ∨ s = .STORAGE_FAILED ∨ s = .DELETING)
    ∧ ∀ (st : SysState) (task : DeleteStorableTask),
        (taskDeleteModel st task).events.take 2
          = [Event.setState task.model_id .DELETING none,
             Event.acquireLock (getLockPath task.cad_type task.file_type task.path)]
        ∧ Event.deleteRow task.model_id ∈ (taskDeleteModel st task).events := by
  refine ⟨fun s => by cases s <;> simp, fun st task => ⟨?_, ?_⟩⟩
  · simp [taskDeleteModel]
  · simp [taskDeleteModel]

/-- Fold of the per-symbol dict insertions, when the entry names are fresh
and distinct: every symbol appends its entry in order. -/
theorem foldl_dictInsert_symbols (ss : List ParsedSymbol)
    (acc : List (String × ParsedModel))
    (hfresh : ∀ s ∈ ss, ∀ kv ∈ acc, kv.1 ≠ s.entryName)
    (hnodup : (ss.map ParsedSymbol.entryName).Nodup) :
    ss.foldl (fun models s => dictInsert models s.entryName
      (.SymbolModel s.entryName ((descriptionProperty s.properties).map (·.value)))) acc
      = acc ++ ss.map symbolEntry := by
  induction ss generalizing acc with
  | nil => simp
  | cons s ss ih =>
    rw [List.foldl_cons]
    have hnot : (acc.any (·.1 == s.entryName)) = false := by
      simp only [List.any_eq_false]
      intro kv hkv
      simpa using hfresh s (by simp) kv hkv
    have hins : dictInsert acc s.entryName
        (.SymbolModel s.entryName ((descriptionProperty s.properties).map (·.value)))
        = acc ++ [symbolEntry s] := by
      unfold dictInsert
      rw [hnot]
      simp [symbolEntry]
    rw [hins, ih]
    · simp
    · intro t ht kv hkv
      rcases List.mem_append.mp hkv with hin | hin
      · exact hfresh t (by simp [ht]) kv hin
      · simp only [List.mem_singleton] at hin
        subst hin
        have : s.entryName ∉ ss.map ParsedSymbol.entryName :=
          (List.nodup_cons.mp (by simpa using hnodup)).1
        simp only [symbolEntry]
        intro hEq
        exact this (by simpa [hEq] using List.mem_map_of_mem ParsedSymbol.entryName ht)
    · exact (List.nodup_cons.mp (by simpa using hnodup)).2

/-- Claim C9: parsing a KiCad symbol library with distinct declared names
yields exactly one entry per symbol, keyed by its declared name, carrying
the "Description" property value verbatim when present and null otherwise,
and parsing fails with the empty-file domain error when there are no
symbols. -/
theorem parse_kicad_symbol_lib_entries (ss : List ParsedSymbol)
    (hnodup : (ss.map ParsedSymbol.entryName).Nodup) :
    (ss ≠ [] → parse_file (.kicad (.symbolLib ss)) .KICAD
      = .ok ⟨.KICAD, ss.map symbolEntry, .SYMBOL⟩)
    ∧ (ss = [] → parse_file (.kicad (.symbolLib ss)) .KICAD
      = .error (.api (.generic "The given KiCAD file is empty" 400))) := by
  have hfold := foldl_dictInsert_symbols ss [] (by simp) hnodup
  constructor
  · intro hne
    cases ss with
    | nil => exact absurd rfl hne
    | cons s ss =>
      simp only [parse_file, parseKicadLib, hfold]
      simp [Except.mapError, symbolEntry]
  · intro he
    subst he
    rfl

/-- Claim C9 witness at a concrete two-symbol library. -/
theorem parse_kicad_symbol_lib_entries_witness :
    parse_file (.kicad (.symbolLib ssC9)) .KICAD
      = .ok ⟨.KICAD, [("A", .SymbolModel "A" (some "da")),
                      ("B", .SymbolModel "B" none)], .SYMBOL⟩ := by
  have h := (parse_kicad_symbol_lib_entries ssC9 (by decide)).1 (by decide)
  simpa [ssC9, symbolEntry, descriptionProperty] using h

/-- Claim C2 counterexample: with a STORED record and a STORAGE_FAILED
sibling at the same path, the delete task for the first removes the
physical file even though another surviving record still points at the
path, and the sibling row survives — refuting removal iff no other
surviving reference. -/
theorem delete_task_removes_file_despite_surviving_sibling :
    (stC2.db.library_ref.filter
      (fun r => r.path == "l.kicad_sym" && r.id != 1)).length = 1
    ∧ stC2.fs.fileExists (getTargetObjectPath .KICAD .SYMBOL "l.kicad_sym") = true
    ∧ (taskDeleteModel stC2 ⟨1, "l.kicad_sym", .SYMBOL, .KICAD⟩).state.fs.fileExists
        (getTargetObjectPath .KICAD .SYMBOL "l.kicad_sym") = false
    ∧ rowC2b ∈ (taskDeleteModel stC2
        ⟨1, "l.kicad_sym", .SYMBOL, .KICAD⟩).state.db.library_ref := by
  refine ⟨by decide, by decide, by decide, by decide⟩

/-- Claim C2 as amended: the delete task removes the physical file at the
target path exactly when it existed and no other reference with the task's
path and cad_type in STORED state remains in the task's table; in every
case the task's row is removed from the table and the task succeeds — so a
STORED sibling leaves the file intact, but a non-STORED one does not
protect it. -/
theorem delete_task_unlink_iff_no_stored_sibling (st : SysState)
    (task : DeleteStorableTask) :
    (taskDeleteModel st task).state.fs.fileExists
        (getTargetObjectPath task.cad_type task.file_type task.path)
      = (st.fs.fileExists (getTargetObjectPath task.cad_type task.file_type task.path)
          && !(getStoredReferencesForId st.db task.path task.cad_type task.file_type
                task.model_id).isEmpty)
    ∧ (taskDeleteModel st task).state.db.table task.file_type
        = (st.db.table task.file_type).filter (fun r => r.id != task.model_id)
    ∧ (taskDeleteModel st task).result = .ok () := by
  have hsib := getStored_after_setState_self st.db task.model_id task.file_type
    .DELETING none task.path task.cad_type
  have hdb : (taskDeleteModel st task).state.db.table task.file_type
      = (st.db.table task.file_type).filter (fun r => r.id != task.model_id) := by
    simp only [taskDeleteModel, table_setTable_same, storeFileSetState]
    exact filter_map_update_excluded _ task.model_id _ (fun r => by split <;> rfl)
      (fun r hr => by simp [hr]) _ (fun r hr => by simp [hr])
  refine ⟨?_, hdb, by simp [taskDeleteModel]⟩
  by_cases hemp : (getStoredReferencesForId st.db task.path task.cad_type
      task.file_type task.model_id).isEmpty = true
  · by_cases hex : st.fs.fileExists
        (getTargetObjectPath task.cad_type task.file_type task.path) = true
    · simp [taskDeleteModel, hsib, hemp, hex, fileExists_unlink_self]
    · have hex' : st.fs.fileExists
          (getTargetObjectPath task.cad_type task.file_type task.path) = false := by
        simpa using hex
      simp [taskDeleteModel, hsib, hemp, hex']
  · simp [taskDeleteModel, hsib, hemp]

/-- Claim C3: when the body of a background store or delete task raises a
data-layer or validation error, the runner — after the body and after the
temp-file cleanup — updates the record to STORAGE_FAILED with
storage_error set to the error's message. -/
theorem task_body_failure_sets_storage_failed (st : SysState)
    (task : BaseStorableTask) (e : TaskError)
    (hfail : (objectStoreTaskBody st task).result = .error e) :
    (object_store_task st task).1.db
      = storeFileSetState (objectStoreTaskBody st task).state.db task.model_id
          task.file_type .STORAGE_FAILED (some e.message)
    ∧ ∃ evs, (object_store_task st task).2
        = (objectStoreTaskBody st task).events ++ evs
          ++ [.setState task.model_id .STORAGE_FAILED (some e.message)] := by
  cases task with
  | createUpdate t =>
    cases hf : t.filename with
    | none =>
      refine ⟨?_, [], ?_⟩ <;>
        simp [object_store_task, hfail, hf]
    | some fname =>
      refine ⟨?_, [Event.removeTemp fname], ?_⟩ <;>
        simp [object_store_task, hfail, hf]
  | delete t =>
    refine ⟨?_, [], ?_⟩ <;>
      simp [object_store_task, hfail]

/-- Claim C3 witness: a store task whose upload is missing fails
validation and ends recorded as STORAGE_FAILED with the error's message. -/
theorem task_body_failure_sets_storage_failed_witness :
    (object_store_task stC3 taskC3).1.db
      = storeFileSetState (objectStoreTaskBody stC3 taskC3).state.db 5 .SYMBOL
          .STORAGE_FAILED (some "Cannot read KiCad lib")
    ∧ ∃ evs, (object_store_task stC3 taskC3).2
        = (objectStoreTaskBody stC3 taskC3).events ++ evs
          ++ [.setState 5 .STORAGE_FAILED (some "Cannot read KiCad lib")] :=
  task_body_failure_sets_storage_failed stC3 taskC3
    (.api (.generic "Cannot read KiCad lib" 400)) (by decide)

/-- Claim C1 counterexample: a KiCad footprint store task carrying a file
that does not contain the reference being stored neither fails nor
withholds the copy — the validation is skipped for KiCad footprints, so
the task succeeds and the bytes land at the target path. -/
theorem store_task_kicad_footprint_skips_validation :
    ((parse_file (stC1.temp.readFile "tmp1") .KICAD).map (fun lib => lib.is_present "r"))
      = .ok false
    ∧ (taskStoreFile stC1 taskC1).result = .ok ()
    ∧ (taskStoreFile stC1 taskC1).state.fs.fileExists
        (getTargetObjectPath .KICAD .FOOTPRINT "l.pretty/f.kicad_mod") = true := by
  refine ⟨by decide, by decide, by decide⟩

/-- Claim C1 as amended: for every store task that carries new bytes and is
not a KiCad footprint task (KiCad footprints hold one footprint per file
and skip this re-validation), the task re-parses the supplied file while
holding the per-path lock and requires every reference currently stored at
the task's path — excluding the task's own row — plus the reference being
stored to be present in it; when one is absent the task fails with a
validation error, the bytes are not copied, and the trace shows the check
ran between lock acquisition and release. -/
theorem store_task_checks_required_references_under_lock (st : SysState)
    (task : CreateUpdateDataStorableTask) (fname : String) (lib : Library)
    (hf : task.filename = some fname)
    (hnk : ¬ (task.cad_type = .KICAD ∧ task.file_type = .FOOTPRINT))
    (hparse : getLibrary (st.temp.readFile fname) task.cad_type task.file_type = .ok lib)
    (hmiss : ¬ (storeTaskRequiredReferences st.db task).all (requiredRefPresent lib) = true) :
    (∃ err, (taskStoreFile st task).result = .error (.api err))
    ∧ (taskStoreFile st task).state.fs = st.fs
    ∧ (taskStoreFile st task).events
        = [.setState task.model_id .STORING none,
           .acquireLock (getLockPath task.cad_type task.file_type task.path),
           .validateRefs,
           .releaseLock (getLockPath task.cad_type task.file_type task.path)] := by
  have hsib := getStored_after_setState_self st.db task.model_id task.file_type
    .STORING none task.path task.cad_type
  have h1 : ¬ ∀ x ∈ storeTaskRequiredReferences st.db task,
      requiredRefPresent lib x = true :=
    fun hall => hmiss (List.all_eq_true.mpr hall)
  push_neg at h1
  obtain ⟨x, hxl, hpx⟩ := h1
  have hpx' : requiredRefPresent lib x = false := Bool.eq_false_iff.mpr hpx
  have hfind : ∃ m, ((storeTaskRequiredReferences st.db task).find?
      (fun r => ! requiredRefPresent lib r)) = some m := by
    rw [← Option.isSome_iff_exists, List.find?_isSome]
    exact ⟨x, hxl, by simp [hpx']⟩
  obtain ⟨m, hm⟩ := hfind
  have hval : storeFileValidate
      (storeFileSetState st.db task.model_id task.file_type .STORING none) st.temp task
      = (.error (.generic ("update to " ++ fname ++ " will remove an existing reference "
          ++ m.getD "None") 500), [.validateRefs]) := by
    simp only [storeFileValidate, hf]
    rw [if_neg hnk]
    simp only [hparse]
    have hlist : ((getStoredReferencesForId
        (storeFileSetState st.db task.model_id task.file_type .STORING none)
        task.path task.cad_type task.file_type task.model_id).map some)
          ++ [task.reference]
        = storeTaskRequiredReferences st.db task := by
      rw [hsib]
      rfl
    rw [hlist, hm]
  refine ⟨⟨.generic ("update to " ++ fname ++ " will remove an existing reference "
      ++ m.getD "None") 500, ?_⟩, ?_, ?_⟩ <;>
    simp [taskStoreFile, hval]

/-- Claim C1 witness: storing a trimmed multi-symbol file that drops a
STORED sibling reference fails under the lock without copying. -/
theorem store_task_checks_required_references_under_lock_witness :
    (∃ err, (taskStoreFile stC1w taskC1w).result = .error (.api err))
    ∧ (taskStoreFile stC1w taskC1w).state.fs = stC1w.fs
    ∧ (taskStoreFile stC1w taskC1w).events
        = [.setState 1 .STORING none,
           .acquireLock (getLockPath .KICAD .SYMBOL "l.kicad_sym"),
           .validateRefs,
           .releaseLock (getLockPath .KICAD .SYMBOL "l.kicad_sym")] :=
  store_task_checks_required_references_under_lock stC1w taskC1w "t"
    ⟨.KICAD, [("A", .SymbolModel "A" none)], .SYMBOL⟩ rfl (by decide) (by decide) (by decide)

/-- Claim C5 counterexample: renaming a KiCad footprint whose record is
NOT_STORED fails with the not-yet-stored InvalidFootprintApiError — the
not-STORED check runs first — not with the unsupported-operation error the
claim says a KiCad footprint rename always fails with. -/
theorem update_metadata_kicad_footprint_not_stored_error :
    update_object_metadata stC5 1 ⟨.FOOTPRINT, .KICAD, some "b", none⟩
      = ⟨.error (.invalidFootprint "cannot update the reference cause the path is not yet stored"),
          stC5.db, []⟩
    ∧ update_object_metadata stC5 1 ⟨.FOOTPRINT, .KICAD, some "b", none⟩
      ≠ ⟨.error (.generic "KiCAD footprints do not support multiple references per file" 400),
          stC5.db, []⟩ := by
  refine ⟨by decide, by decide⟩

/-- Claim C5 as amended: for a metadata update requesting a reference
change: when the record is not STORED it fails with the not-yet-stored
error, this check preceding the KiCad-footprint check; when the record is
STORED and the resource is a KiCad footprint it fails with the
unsupported-operation error; and when the record is STORED, the resource
is not a KiCad footprint, the new name does not collide and the re-parsed
stored file does not contain it, it fails with the reference-not-found
error; in every failing case the database — hence storage_status,
reference and description — is unchanged and no task is scheduled. -/
theorem update_metadata_reference_change_failure_modes (st : SysState)
    (model_id : Nat) (req : StorableObjectUpdateRequest) (model : StorableModelRow)
    (hget : st.db.get req.file_type model_id = some model)
    (htruthy : optStrTruthy req.reference = true)
    (hdiff : req.reference ≠ some model.reference) :
    (model.storage_status ≠ .STORED →
      update_object_metadata st model_id req
        = ⟨.error (getErrorForType req.file_type
            "cannot update the reference cause the path is not yet stored"), st.db, []⟩)
    ∧ (model.storage_status = .STORED → req.cad_type = .KICAD →
        req.file_type = .FOOTPRINT →
      update_object_metadata st model_id req
        = ⟨.error (.generic "KiCAD footprints do not support multiple references per file" 400),
            st.db, []⟩)
    ∧ (∀ lib : Library, model.storage_status = .STORED →
        ¬ (req.cad_type = .KICAD ∧ req.file_type = .FOOTPRINT) →
        validateStorableNotExists st.db model.path (req.reference.getD "")
          req.file_type model.cad_type (some model.id) = .ok () →
        getLibrary (st.fs.readFile
            (getTargetObjectPath req.cad_type req.file_type model.path))
          req.cad_type req.file_type = .ok lib →
        lib.is_present (req.reference.getD "") = false →
      update_object_metadata st model_id req
        = ⟨.error (getErrorForType req.file_type
            "The given reference does not exist in the given library "), st.db, []⟩) := by
  refine ⟨?_, ?_, ?_⟩
  · intro hns
    simp [update_object_metadata, hget, htruthy, hdiff, hns]
  · intro hs hck hcf
    have hget' := hget
    rw [hcf] at hget'
    simp [update_object_metadata, hget', htruthy, hdiff, hs, hck, hcf,
      validateKicadReferenceChange]
  · intro lib hs hnkf hval hparse habs
    simp [update_object_metadata, hget, htruthy, hdiff, hs,
      validateKicadReferenceChange, hnkf, hval, hparse, habs]

/-- Claim C5 witness: renaming a STORED Altium symbol to a name absent
from the re-parsed stored file fails with the reference-not-found error
and changes nothing. -/
theorem update_metadata_reference_change_failure_modes_witness :
    update_object_metadata stC5w 4 ⟨.SYMBOL, .ALTIUM, some "Y", none⟩
      = ⟨.error (.invalidSymbol "The given reference does not exist in the given library "),
          stC5w.db, []⟩ :=
  (update_metadata_reference_change_failure_modes stC5w 4
      ⟨.SYMBOL, .ALTIUM, some "Y", none⟩ rowC5w (by decide) (by decide) (by decide)).2.2
    ⟨.ALTIUM, [("X", .SymbolModel "X" none)], .SYMBOL⟩ rfl (by decide) (by decide)
    (by decide) (by decide)

/-- The alias derivation only reads the request's cad_type, file_type and
path. -/
theorem getModelAlias_congr (a b : StorableObjectRequest)
    (hc : a.cad_type = b.cad_type) (hf : a.file_type = b.file_type)
    (hp : a.path = b.path) : getModelAlias a = getModelAlias b := by
  unfold getModelAlias
  rw [hc, hf, hp]

/-- The alias the service computes agrees with the amended per-claim
derivation on every request. -/
theorem getModelAlias_eq_amended (req : StorableObjectRequest) :
    getModelAlias req = aliasAmendedC6 req := by
  unfold getModelAlias aliasAmendedC6
  by_cases h : req.cad_type = .KICAD <;> simp [h]

/-- Claim C6 counterexample: creating a record for a validated KiCad
footprint path whose parent directory also contains ".pretty" before its
suffix yields alias EDAPARTS_X, while the claim's suffix-removal
derivation yields EDAPARTS_X_PRETTY — the code removes every occurrence of
".pretty", not only the suffix. -/
theorem create_alias_not_suffix_removal :
    validateInputPath reqC6x.path reqC6x.cad_type reqC6x.file_type = .ok ()
    ∧ (create_storable_library_object stC6x reqC6x).result.map (·.aliasValue)
        = .ok (some "EDAPARTS_X")
    ∧ aliasPerClaimC6 reqC6x = some "EDAPARTS_X_PRETTY"
    ∧ (some "EDAPARTS_X" : Option String) ≠ some "EDAPARTS_X_PRETTY" := by
  refine ⟨by decide, by decide, by decide, by decide⟩

/-- Claim C6 as amended: every record create_from_upload persists carries
the alias derived deterministically from the library path — for KiCad
footprints the parent directory's basename lowercased with every
occurrence of ".pretty" removed, for KiCad symbols the lowercased path
without its extension, then non-alphanumeric runs collapsed to
underscores, stripped of underscores at both ends, uppercased and prefixed
EDAPARTS_ — when cad_type is KICAD, and no alias when cad_type is ALTIUM;
Lib.pretty/R.kicad_mod derives EDAPARTS_LIB. -/
theorem create_alias_derivation (st : SysState) (req : StorableObjectRequest)
    (row : StorableModelRow) (db1 : Database) (tasks : List BaseStorableTask)
    (hok : create_storable_library_object st req = ⟨.ok row, db1, tasks⟩) :
    row.aliasValue = aliasAmendedC6 req
    ∧ (req.cad_type = .ALTIUM → row.aliasValue = none)
    ∧ aliasAmendedC6 reqC6 = some "EDAPARTS_LIB" := by
  have key : row.aliasValue = getModelAlias req := by
    unfold create_storable_library_object at hok
    split at hok
    · exact absurd hok (by simp)
    split at hok
    · exact absurd hok (by simp)
    split at hok
    · split at hok
      · exact absurd hok (by simp)
      · simp only [] at hok
        split at hok
        · exact absurd hok (by simp)
        split at hok
        · exact absurd hok (by simp)
        split at hok <;>
          (injection hok with h1 h2 h3
           injection h1 with h1
           subst h1
           exact getModelAlias_congr _ req rfl rfl rfl)
    · simp only [] at hok
      split at hok
      · exact absurd hok (by simp)
      split at hok
      · exact absurd hok (by simp)
      split at hok <;>
        (injection hok with h1 h2 h3
         injection h1 with h1
         subst h1
         exact getModelAlias_congr _ req rfl rfl rfl)
  refine ⟨key.trans (getModelAlias_eq_amended req), fun hA => ?_, by decide⟩
  rw [key.trans (getModelAlias_eq_amended req)]
  simp [aliasAmendedC6, hA]

/-- Claim C6 witness: the end-to-end upload of Lib.pretty/R.kicad_mod
creates the record with alias EDAPARTS_LIB, matching the amended
derivation. -/
theorem create_alias_derivation_witness :
    ({ id := 1, path := "Lib.pretty/R.kicad_mod", reference := "R_0603",
       aliasValue := some "EDAPARTS_LIB", description := none,
       storage_status := .NOT_STORED, storage_error := none,
       cad_type := .KICAD } : StorableModelRow).aliasValue = aliasAmendedC6 reqC6
    ∧ (reqC6.cad_type = .ALTIUM →
        ({ id := 1, path := "Lib.pretty/R.kicad_mod", reference := "R_0603",
           aliasValue := some "EDAPARTS_LIB", description := none,
           storage_status := .NOT_STORED, storage_error := none,
           cad_type := .KICAD } : StorableModelRow).aliasValue = none)
    ∧ aliasAmendedC6 reqC6 = some "EDAPARTS_LIB" :=
  create_alias_derivation stC6 reqC6
    { id := 1, path := "Lib.pretty/R.kicad_mod", reference := "R_0603",
      aliasValue := some "EDAPARTS_LIB", description := none,
      storage_status := .NOT_STORED, storage_error := none, cad_type := .KICAD }
    ⟨[{ id := 1, path := "Lib.pretty/R.kicad_mod", reference := "R_0603",
        aliasValue := some "EDAPARTS_LIB", description := none,
        storage_status := .NOT_STORED, storage_error := none, cad_type := .KICAD }], []⟩
    [.createUpdate ⟨1, "Lib.pretty/R.kicad_mod", .FOOTPRINT, .KICAD,
      some "R_0603", some "t7"⟩]
    (by decide)

/-- Inserting a value under its own name preserves the invariant that
every dictionary entry is keyed by its model's name. -/
theorem dictInsert_keyed (m : List (String × ParsedModel)) (v : ParsedModel)
    (hm : ∀ kv ∈ m, kv.2.name = kv.1) :
    ∀ kv ∈ dictInsert m v.name v, kv.2.name = kv.1 := by
  intro kv hkv
  unfold dictInsert at hkv
  split at hkv
  · rcases List.mem_map.mp hkv with ⟨p, hp, hpe⟩
    by_cases hc : p.1 == v.name
    · rw [if_pos hc] at hpe
      rw [← hpe]
    · rw [if_neg hc] at hpe
      rw [← hpe]
      exact hm p hp
  · rcases List.mem_append.mp hkv with h | h
    · exact hm kv h
    · simp only [List.mem_singleton] at h
      rw [h]

/-- Every parser loop inserts each model under its own name, so the
invariant holds of the fold. -/
theorem foldl_dictInsert_keyed {α : Type} (k : α → String) (g : α → ParsedModel)
    (hk : ∀ a, (g a).name = k a) (l : List α) (acc : List (String × ParsedModel))
    (hacc : ∀ kv ∈ acc, kv.2.name = kv.1) :
    ∀ kv ∈ l.foldl (fun m a => dictInsert m (k a) (g a)) acc, kv.2.name = kv.1 := by
  induction l generalizing acc with
  | nil => exact hacc
  | cons a l ih =>
    rw [List.foldl_cons]
    apply ih
    have h := dictInsert_keyed acc (g a) hacc
    rw [hk a] at h
    exact h

/-- Every model the two parser loops build is keyed by its own name. -/
theorem parser_models_keyed (c : FileContent) (ct : CadType)
    (models : List (String × ParsedModel))
    (hm : (match ct with
      | CadType.KICAD => (parseKicadLib c).mapError ParseError.api
      | CadType.ALTIUM => parseOlefileLibrary c) = .ok models) :
    ∀ kv ∈ models, kv.2.name = kv.1 := by
  cases ct with
  | KICAD =>
    cases c with
    | altium d => simp [parseKicadLib, Except.mapError] at hm
    | kicad d =>
      cases d with
      | symbolLib symbols =>
        simp only [parseKicadLib, Except.mapError, Except.ok.injEq] at hm
        rw [← hm]
        exact foldl_dictInsert_keyed ParsedSymbol.entryName
          (fun s => .SymbolModel s.entryName
            ((descriptionProperty s.properties).map (·.value)))
          (fun s => rfl) symbols [] (by simp)
      | footprintFile n d =>
        simp only [parseKicadLib, Except.mapError, Except.ok.injEq] at hm
        rw [← hm]
        exact dictInsert_keyed [] (.FootprintModel n d) (by simp)
      | unrecognized t => simp [parseKicadLib, Except.mapError] at hm
      | unreadable e => simp [parseKicadLib, Except.mapError] at hm
  | ALTIUM =>
    cases c with
    | kicad d => simp [parseOlefileLibrary] at hm
    | altium d =>
      cases d with
      | pcbBinaryLib parts =>
        simp only [parseOlefileLibrary, Except.ok.injEq] at hm
        rw [← hm]
        exact foldl_dictInsert_keyed Prod.fst
          (fun p => .FootprintModel p.1 p.2) (fun p => rfl) parts [] (by simp)
      | schematicLib parts =>
        simp only [parseOlefileLibrary, Except.ok.injEq] at hm
        rw [← hm]
        exact foldl_dictInsert_keyed Prod.fst
          (fun p => .SymbolModel p.1 p.2) (fun p => rfl) parts [] (by simp)
      | unsupported =>
        simp only [parseOlefileLibrary, Except.ok.injEq] at hm
        rw [← hm]
        simp
      | corrupt e => simp [parseOlefileLibrary] at hm

/-- Every entry of a parsed library is keyed by its model's declared name. -/
theorem parse_file_keyed (c : FileContent) (ct : CadType) (lib : Library)
    (h : parse_file c ct = .ok lib) : ∀ kv ∈ lib.models, kv.2.name = kv.1 := by
  unfold parse_file at h
  cases hm : (match ct with
      | CadType.KICAD => (parseKicadLib c).mapError ParseError.api
      | CadType.ALTIUM => parseOlefileLibrary c) with
  | error e =>
    rw [hm] at h
    exact absurd h (by simp)
  | ok models =>
    rw [hm] at h
    simp only [] at h
    split at h
    · exact absurd h (by simp)
    · injection h with h
      rw [← h]
      exact parser_models_keyed c ct models hm

/-- A successful __get_library returns the parse result unchanged. -/
theorem getLibrary_ok (c : FileContent) (ct : CadType)
    (et : StorableLibraryResourceType) (lib : Library)
    (h : getLibrary c ct et = .ok lib) : parse_file c ct = .ok lib := by
  unfold getLibrary at h
  split at h
  · exact absurd h (by simp)
  · exact absurd h (by simp)
  · rename_i lib1 heq
    split at h
    · exact absurd h (by simp)
    · injection h with h
      rw [← h]
      exact heq

/-- Claim C7: for a create_from_upload request with no reference supplied
(a falsy reference) and a validated path: a parse failure — including the
empty-library case — fails the request with the parse error and creates no
record and no task; a library with a part count other than one fails with
the ambiguous-library error and creates nothing; and a single-part library
yields a created NOT_STORED record adopting that part's name as its
reference, plus one scheduled store task. -/
theorem create_without_reference_part_count (st : SysState)
    (req : StorableObjectRequest)
    (hnoref : optStrTruthy req.reference = false)
    (hpath : validateInputPath req.path req.cad_type req.file_type = .ok ()) :
    (∀ e, getLibrary (st.temp.readFile req.filename) req.cad_type req.file_type
        = .error e →
      create_storable_library_object st req = ⟨.error e, st.db, []⟩)
    ∧ (∀ lib, getLibrary (st.temp.readFile req.filename) req.cad_type req.file_type
        = .ok lib → lib.count ≠ 1 →
      create_storable_library_object st req
        = ⟨.error (getErrorForType req.file_type
            "More than one part in the given library. Provide a reference"), st.db, []⟩)
    ∧ (∀ lib, getLibrary (st.temp.readFile req.filename) req.cad_type req.file_type
        = .ok lib → lib.count = 1 →
        validateStorableNotExists st.db req.path
          ((lib.models.head?.map (fun p => p.2.name)).getD "")
          req.file_type req.cad_type none = .ok () →
      ∃ row db2 task, create_storable_library_object st req = ⟨.ok row, db2, [task]⟩
        ∧ row.reference = (lib.models.head?.map (fun p => p.2.name)).getD ""
        ∧ row.storage_status = .NOT_STORED) := by
  refine ⟨?_, ?_, ?_⟩
  · intro e he
    simp [create_storable_library_object, hpath, he]
  · intro lib hlib hcount
    simp [create_storable_library_object, hpath, hlib, hnoref, hcount]
  · intro lib hlib hcount hval
    obtain ⟨kv, hkv⟩ := List.length_eq_one.mp (by simpa [Library.count] using hcount)
    have hkey : kv.2.name = kv.1 :=
      parse_file_keyed _ _ _ (getLibrary_ok _ _ _ _ hlib) kv (by simp [hkv])
    have hpres : lib.is_present kv.2.name = true := by
      simp [Library.is_present, hkv, hkey]
    simp only [hkv, List.head?_cons, Option.map_some', Option.getD_some] at hval
    by_cases hd : optStrTruthy req.description = false <;>
      simp [create_storable_library_object, hpath, hlib, hnoref, Library.count,
        hkv, hd, hpres, hval]

/-- Claim C7 witness: a single-symbol upload with no reference succeeds
and adopts the symbol's name. -/
theorem create_without_reference_part_count_witness :
    ∃ row db2 task,
      create_storable_library_object stC7 reqC7 = ⟨.ok row, db2, [task]⟩
      ∧ row.reference = "S1"
      ∧ row.storage_status = .NOT_STORED :=
  (create_without_reference_part_count stC7 reqC7 (by decide) (by decide)).2.2
    ⟨.KICAD, [("S1", .SymbolModel "S1" (some "a desc"))], .SYMBOL⟩
    (by decide) (by decide) (by decide)

end Edaparts
